import Mathlib

/-!
Verification of the depthai device-session state machine of `zrezke/rerun`
(`crates/re_viewer/src/depthai/depthai.rs`) and its websocket message codec
(`crates/re_viewer/src/depthai/ws.rs`).

The Rust code is shallowly embedded: each Rust method becomes a pure Lean
function; mutation of `self` becomes explicit state passing, and every
outbound network send (`backend_comms.set_subscriptions`, `set_pipeline`,
`set_device`, `get_devices`) is recorded as an element of a command list
returned alongside the new state.  Wall-clock instants are modelled as `Nat`
timestamps in milliseconds, so `Instant::elapsed().as_secs()` becomes
`(now - t) / 1000`.
-/

namespace Depthai

/-- `pub enum ColorCameraResolution` from depthai.rs. -/
inductive ColorCameraResolution where
  | THE_1080_P
  | THE_4_K
deriving DecidableEq, Repr

/-- `pub enum MonoCameraResolution` from depthai.rs. -/
inductive MonoCameraResolution where
  | THE_400_P
deriving DecidableEq, Repr

/-- `pub struct ColorCameraConfig` from depthai.rs (`fps: u8` modelled as `Nat`). -/
structure ColorCameraConfig where
  fps : Nat
  resolution : ColorCameraResolution
deriving DecidableEq, Repr

/-- `impl Default for ColorCameraConfig`. -/
def ColorCameraConfig.default : ColorCameraConfig :=
  { fps := 30, resolution := ColorCameraResolution.THE_1080_P }

/-- `pub enum BoardSocket` from depthai.rs. -/
inductive BoardSocket where
  | AUTO
  | RGB
  | LEFT
  | RIGHT
  | CENTER
  | CAM_A
  | CAM_B
  | CAM_C
  | CAM_D
  | CAM_E
  | CAM_F
  | CAM_G
  | CAM_H
deriving DecidableEq, Repr

/-- `pub struct MonoCameraConfig` from depthai.rs. -/
structure MonoCameraConfig where
  fps : Nat
  resolution : MonoCameraResolution
  board_socket : BoardSocket
deriving DecidableEq, Repr

/-- `impl Default for MonoCameraConfig`. -/
def MonoCameraConfig.default : MonoCameraConfig :=
  { fps := 30
    resolution := MonoCameraResolution.THE_400_P
    board_socket := BoardSocket.AUTO }

/-- `pub enum DepthMedianFilter` from depthai.rs. -/
inductive DepthMedianFilter where
  | MEDIAN_OFF
  | KERNEL_3x3
  | KERNEL_5x5
  | KERNEL_7x7
deriving DecidableEq, Repr

/-- `impl Default for DepthMedianFilter`. -/
def DepthMedianFilter.default : DepthMedianFilter := DepthMedianFilter.KERNEL_7x7

/-- `pub struct PointcloudConfig` from depthai.rs. -/
structure PointcloudConfig where
  enabled : Bool
deriving DecidableEq, Repr

/-- `#[derive(Default)]` for `PointcloudConfig` (`bool` defaults to `false`). -/
def PointcloudConfig.default : PointcloudConfig := { enabled := false }

/-- `pub struct DepthConfig` from depthai.rs. -/
structure DepthConfig where
  median : DepthMedianFilter
  pointcloud : PointcloudConfig
deriving DecidableEq, Repr

/-- `#[derive(Default)]` for `DepthConfig`: field-wise defaults. -/
def DepthConfig.default : DepthConfig :=
  { median := DepthMedianFilter.default, pointcloud := PointcloudConfig.default }

/-- `DepthConfig::default_as_option` from depthai.rs. -/
def DepthConfig.default_as_option : Option DepthConfig := some DepthConfig.default

/-- `pub struct AiModel` from depthai.rs. -/
structure AiModel where
  path : String
  display_name : String
deriving DecidableEq, Repr

/-- `impl Default for AiModel`. -/
def AiModel.default : AiModel :=
  { path := "", display_name := "No model selected" }

/-- `pub struct DeviceConfig` from depthai.rs.  The `#[serde(default = ...)]`
attributes on `depth_enabled` and `depth` affect only deserialization; the
`Default` derive gives `false` and `None`. -/
structure DeviceConfig where
  color_camera : ColorCameraConfig
  left_camera : MonoCameraConfig
  right_camera : MonoCameraConfig
  depth_enabled : Bool
  depth : Option DepthConfig
  ai_model : AiModel
deriving DecidableEq, Repr

/-- `#[derive(Default)]` for `DeviceConfig`: field-wise Rust defaults
(`bool` is `false`, `Option` is `None`). -/
def DeviceConfig.default : DeviceConfig :=
  { color_camera := ColorCameraConfig.default
    left_camera := MonoCameraConfig.default
    right_camera := MonoCameraConfig.default
    depth_enabled := false
    depth := none
    ai_model := AiModel.default }

/-- `pub struct DeviceConfigState` from depthai.rs. -/
structure DeviceConfigState where
  config : DeviceConfig
  update_in_progress : Bool
deriving DecidableEq, Repr

/-- `#[derive(Default)]` for `DeviceConfigState`. -/
def DeviceConfigState.default : DeviceConfigState :=
  { config := DeviceConfig.default, update_in_progress := false }

/-- `pub enum ErrorAction` from depthai.rs. -/
inductive ErrorAction where
  | None
  | FullReset
deriving DecidableEq, Repr

/-- `pub struct Error` from depthai.rs (the inbound error payload
`{action, message}` that `State::update` destructures). -/
structure Error where
  action : ErrorAction
  message : String
deriving DecidableEq, Repr

/-- `pub type DeviceId = i64` from depthai.rs, modelled as `Int`. -/
abbrev DeviceId := Int

/-- `pub struct Device` from depthai.rs. -/
structure Device where
  id : DeviceId
deriving DecidableEq, Repr

/-- `impl Default for Device`: the sentinel id `-1` means no device selected. -/
def Device.default : Device := { id := -1 }

/-- `pub enum ChannelId` from depthai.rs. -/
inductive ChannelId where
  | ColorImage
  | LeftMono
  | RightMono
  | DepthImage
  | PointCloud
  | PinholeCamera
deriving DecidableEq, Repr, Fintype

/-- The inbound event payloads dispatched by `State::update` in depthai.rs
(`WsMessageData` as consumed there: the `Error` arm reads `error.message`
and `error.action`, so its payload is the `Error` struct). -/
inductive WsMessageData where
  | Subscriptions (subs : List ChannelId)
  | Devices (devices : List DeviceId)
  | Device (device : Device)
  | Pipeline (config : DeviceConfig)
  | Error (error : Error)
deriving DecidableEq, Repr

/-- Modelled from the spec: the outbound envelope kinds of §4.2
(`Subscriptions(set)`, `Devices` pull, `Device{id}`, `Pipeline(DeviceConfig)`).
`src/crates/re_viewer/src/depthai/api.rs` in the file set is an earlier
protocol iteration whose `BackendCommChannel` method signatures no longer
match the calls made by depthai.rs, so each outbound send performed through
`backend_comms` is recorded as one of these commands. -/
inductive Cmd where
  | subscriptions (subs : List ChannelId)
  | pipeline (config : DeviceConfig)
  | device (id : DeviceId)
  | getDevices
deriving DecidableEq, Repr

/-- `pub struct State` from depthai.rs.  `poll_instant` is a millisecond
timestamp; `connected` is modelled from the spec: the transport's
cross-thread `connected` flag (`backend_comms.ws.connected`, §5 of the spec)
that `set_device_config` reads — the `WebSocket` in the file set's ws.rs is
an earlier iteration without that field. -/
structure State where
  devices_available : Option (List DeviceId)
  selected_device : Device
  device_config : DeviceConfigState
  subscriptions : List ChannelId
  setting_subscriptions : Bool
  connected : Bool
  poll_instant : Option Nat
  neural_networks : List AiModel
deriving DecidableEq, Repr

/-- `fn all_subscriptions()` from depthai.rs. -/
def all_subscriptions : List ChannelId :=
  [ChannelId.ColorImage, ChannelId.LeftMono, ChannelId.RightMono,
   ChannelId.DepthImage, ChannelId.PointCloud]

/-- `fn default_neural_networks()` from depthai.rs. -/
def default_neural_networks : List AiModel :=
  [AiModel.default,
   { path := "yolo-v3-tiny-tf", display_name := "Yolo (tiny)" },
   { path := "mobilenet-ssd", display_name := "MobileNet SSD" },
   { path := "face-detection-retail-0004", display_name := "Face Detection" },
   { path := "age-gender-recognition-retail-0013",
     display_name := "Age gender recognition" }]

/-- `impl Default for State`, parameterized by the construction instant
(`poll_instant: Some(Instant::now())`). -/
def State.init (now : Nat) : State :=
  { devices_available := none
    selected_device := Device.default
    device_config := DeviceConfigState.default
    subscriptions := all_subscriptions
    setting_subscriptions := false
    connected := false
    poll_instant := some now
    neural_networks := default_neural_networks }

/-- `State::set_subscriptions` from depthai.rs: no-op when the current list
has the same length as the new one and every current channel occurs in the
new one; otherwise send a `Subscriptions` command and adopt the new list. -/
def State.set_subscriptions (s : State) (subs : List ChannelId) :
    State × List Cmd :=
  if s.subscriptions.length = subs.length ∧
      ∀ c ∈ s.subscriptions, c ∈ subs then
    (s, [])
  else
    ({ s with subscriptions := subs }, [Cmd.subscriptions subs])

/-- `State::set_device` from depthai.rs: return early when the id equals the
currently selected device's id, otherwise send a `Device` command; the local
`selected_device` is never written here. -/
def State.set_device (s : State) (device_id : DeviceId) : State × List Cmd :=
  if s.selected_device.id = device_id then
    (s, [])
  else
    (s, [Cmd.device device_id])

/-- `State::set_device_config` from depthai.rs: guarded on the transport
being connected and a device being selected; force-sets the mono camera
board sockets, stores the config, pushes a `Pipeline` command and raises
`update_in_progress`. -/
def State.set_device_config (s : State) (config : DeviceConfig) :
    State × List Cmd :=
  if ¬ s.connected ∨ s.selected_device.id = -1 then
    (s, [])
  else
    let config :=
      { config with
          left_camera := { config.left_camera with board_socket := BoardSocket.LEFT }
          right_camera := { config.right_camera with board_socket := BoardSocket.RIGHT } }
    ({ s with
        device_config :=
          { config := config, update_in_progress := true } },
     [Cmd.pipeline config])

/-- The message-dispatch half of `State::update` from depthai.rs (step 1:
drain at most one transport event and dispatch on its kind).  The drained
event — `backend_comms.receive()`'s result — is passed in explicitly. -/
def State.handle_message (s : State) (msg : Option WsMessageData) :
    State × List Cmd :=
  match msg with
  | none => (s, [])
  | some (WsMessageData.Subscriptions subs) =>
      ({ s with subscriptions := subs }, [])
  | some (WsMessageData.Devices devices) =>
      ({ s with devices_available := some devices }, [])
  | some (WsMessageData.Pipeline config) =>
      let subs := s.subscriptions ++
        (match config.depth with
         | some depth =>
             [ChannelId.DepthImage] ++
               (if depth.pointcloud.enabled then [ChannelId.PointCloud] else [])
         | none => [])
      let s := { s with device_config := { s.device_config with config := config } }
      let s := { s with device_config :=
        { s.device_config with config :=
          { s.device_config.config with
              depth_enabled := s.device_config.config.depth.isSome } } }
      let r := s.set_subscriptions subs
      ({ r.1 with device_config := { r.1.device_config with update_in_progress := false } },
       r.2)
  | some (WsMessageData.Device device) =>
      ({ s with
          selected_device := device
          device_config := { s.device_config with update_in_progress := true } },
       [Cmd.subscriptions s.subscriptions, Cmd.pipeline s.device_config.config])
  | some (WsMessageData.Error error) =>
      let s := { s with device_config :=
        { s.device_config with update_in_progress := false } }
      match error.action with
      | ErrorAction.None => (s, [])
      | ErrorAction.FullReset => s.set_device (-1)

/-- The poll half of `State::update` from depthai.rs (step 2): if less than
2 wall-clock seconds elapsed since `poll_instant`, do nothing; otherwise
send a `Devices` pull request when no device is selected, and reset
`poll_instant` to now.  Times are in milliseconds. -/
def State.poll (s : State) (now : Nat) : State × List Cmd :=
  match s.poll_instant with
  | some t =>
      if (now - t) / 1000 < 2 then
        (s, [])
      else
        ({ s with poll_instant := some now },
         if s.selected_device.id = -1 then [Cmd.getDevices] else [])
  | none => ({ s with poll_instant := some now }, [])

/-- `State::update` from depthai.rs: dispatch the (at most one) received
event, then run the catalog poll. -/
def State.update (s : State) (msg : Option WsMessageData) (now : Nat) :
    State × List Cmd :=
  let (s1, c1) := s.handle_message msg
  let (s2, c2) := s1.poll now
  (s2, c1 ++ c2)

/-- The five entity paths of the `DEPTHAI_ENTITY_HASHES` table in depthai.rs,
plus arbitrary other paths that are not in the table. -/
inductive EntityPath where
  | rgb
  | leftMono
  | rightMono
  | depth
  | pointCloud
  | other (n : Nat)
deriving DecidableEq, Repr

/-- The `DEPTHAI_ENTITY_HASHES` lookup (entity path → channel) from
depthai.rs; paths outside the five fixed entries map to nothing. -/
def depthai_entity_channel : EntityPath → Option ChannelId
  | EntityPath.rgb => some ChannelId.ColorImage
  | EntityPath.leftMono => some ChannelId.LeftMono
  | EntityPath.rightMono => some ChannelId.RightMono
  | EntityPath.depth => some ChannelId.DepthImage
  | EntityPath.pointCloud => some ChannelId.PointCloud
  | EntityPath.other _ => none

/-- The projection of a `SpaceView` that `set_subscriptions_from_space_views`
reads: its entity paths and, via the data-blueprint property map, each
path's visibility. -/
structure SpaceView where
  entity_paths : List EntityPath
  visible : EntityPath → Bool

/-- The per-channel visibility bucket built by the first loop of
`set_subscriptions_from_space_views`: for each visible space view, every
entity path mapped to this channel contributes its visibility flag. -/
def channelVisibilities (views : List SpaceView) (c : ChannelId) : List Bool :=
  (views.map (fun v =>
    v.entity_paths.filterMap (fun p =>
      if depthai_entity_channel p = some c then some (v.visible p) else none))).flatten

/-- The keys of the `visibilities` map in `set_subscriptions_from_space_views`,
in insertion order. -/
def visibilityChannels : List ChannelId :=
  [ChannelId.ColorImage, ChannelId.LeftMono, ChannelId.RightMono,
   ChannelId.DepthImage, ChannelId.PointCloud]

/-- The `possible_subscriptions` vector of
`set_subscriptions_from_space_views`: color and the two monos always;
`DepthImage` when `config.depth` is present, plus `PointCloud` when its
pointcloud output is enabled. -/
def possible_subscriptions (config : DeviceConfig) : List ChannelId :=
  [ChannelId.ColorImage, ChannelId.LeftMono, ChannelId.RightMono] ++
    (match config.depth with
     | some depth =>
         [ChannelId.DepthImage] ++
           (if depth.pointcloud.enabled then [ChannelId.PointCloud] else [])
     | none => [])

/-- The desired subscription list computed by
`set_subscriptions_from_space_views` before it is handed to
`set_subscriptions`: channels that some view reports visible and that are
possible, then the retention loop over `all_subscriptions` keeping possible,
currently subscribed channels that were not already collected. -/
def desired_subscriptions (s : State) (views : List SpaceView) :
    List ChannelId :=
  let possible := possible_subscriptions s.device_config.config
  let base := visibilityChannels.filter (fun c =>
    (channelVisibilities views c).any id && decide (c ∈ possible))
  all_subscriptions.foldl (fun subs c =>
    if c ∉ subs ∧ c ∈ possible ∧ c ∈ s.subscriptions then
      subs ++ [c]
    else subs) base

/-- `State::set_subscriptions_from_space_views` from depthai.rs. -/
def State.set_subscriptions_from_space_views (s : State)
    (views : List SpaceView) : State × List Cmd :=
  s.set_subscriptions (desired_subscriptions s views)

end Depthai

namespace Ws

/-- A JSON value (`serde_json::Value`), with numbers restricted to the
integers actually used by this wire protocol. -/
inductive Json where
  | null
  | bool (b : Bool)
  | num (n : Int)
  | str (s : String)
  | arr (elems : List Json)
  | obj (fields : List (String × Json))
deriving Repr

/-- First-match field lookup on a JSON object. -/
def Json.getField : Json → String → Option Json
  | Json.obj fields, name => fields.lookup name
  | _, _ => none

/-- `pub enum WsMessageType` from ws.rs. -/
inductive WsMessageType where
  | Subscriptions
  | Devices
  | Device
  | Pipeline
  | Error
deriving DecidableEq, Repr

/-- `pub enum WsMessageData` from ws.rs (note: in ws.rs the `Error` payload
is a plain `String`). -/
inductive WsMessageData where
  | Subscriptions (subs : List Depthai.ChannelId)
  | Devices (devices : List Depthai.DeviceId)
  | Device (device : Depthai.Device)
  | Pipeline (config : Depthai.DeviceConfig)
  | Error (message : String)
deriving DecidableEq, Repr

/-- `pub struct BackWsMessage` from ws.rs (`kind` carries the serde name
`type` on the wire). -/
structure BackWsMessage where
  kind : WsMessageType
  data : WsMessageData
deriving DecidableEq, Repr

/-- serde decoding of the unit-variant enum `WsMessageType`: a string equal
to a variant name; anything else is an error. -/
def decodeWsMessageType : Json → Except String WsMessageType
  | Json.str s =>
      if s = "Subscriptions" then Except.ok WsMessageType.Subscriptions
      else if s = "Devices" then Except.ok WsMessageType.Devices
      else if s = "Device" then Except.ok WsMessageType.Device
      else if s = "Pipeline" then Except.ok WsMessageType.Pipeline
      else if s = "Error" then Except.ok WsMessageType.Error
      else Except.error ("unknown variant " ++ s)
  | _ => Except.error "invalid type: expected a string variant tag"

/-- serde decoding of a `String`. -/
def decodeString : Json → Except String String
  | Json.str s => Except.ok s
  | _ => Except.error "invalid type: expected a string"

/-- serde decoding of a `bool`. -/
def decodeBool : Json → Except String Bool
  | Json.bool b => Except.ok b
  | _ => Except.error "invalid type: expected a boolean"

/-- serde decoding of a `u8`. -/
def decodeU8 : Json → Except String Nat
  | Json.num n =>
      if 0 ≤ n ∧ n < 256 then Except.ok n.toNat
      else Except.error "invalid value: integer out of range for u8"
  | _ => Except.error "invalid type: expected an integer"

/-- serde decoding of an `i64` (`DeviceId`). -/
def decodeI64 : Json → Except String Int
  | Json.num n =>
      if -(2 ^ 63) ≤ n ∧ n < 2 ^ 63 then Except.ok n
      else Except.error "invalid value: integer out of range for i64"
  | _ => Except.error "invalid type: expected an integer"

/-- serde decoding of the unit-variant enum `ChannelId`. -/
def decodeChannelId : Json → Except String Depthai.ChannelId
  | Json.str s =>
      if s = "ColorImage" then Except.ok Depthai.ChannelId.ColorImage
      else if s = "LeftMono" then Except.ok Depthai.ChannelId.LeftMono
      else if s = "RightMono" then Except.ok Depthai.ChannelId.RightMono
      else if s = "DepthImage" then Except.ok Depthai.ChannelId.DepthImage
      else if s = "PointCloud" then Except.ok Depthai.ChannelId.PointCloud
      else if s = "PinholeCamera" then Except.ok Depthai.ChannelId.PinholeCamera
      else Except.error ("unknown variant " ++ s)
  | _ => Except.error "invalid type: expected a string variant tag"

/-- serde decoding of `Vec<ChannelId>`. -/
def decodeChannelIdList : Json → Except String (List Depthai.ChannelId)
  | Json.arr elems => elems.mapM decodeChannelId
  | _ => Except.error "invalid type: expected a sequence"

/-- serde decoding of `Vec<DeviceId>`. -/
def decodeDeviceIdList : Json → Except String (List Depthai.DeviceId)
  | Json.arr elems => elems.mapM decodeI64
  | _ => Except.error "invalid type: expected a sequence"

/-- serde decoding of `Device` (struct with an `id: i64` field). -/
def decodeDevice : Json → Except String Depthai.Device
  | Json.obj fields => do
      match (Json.obj fields).getField "id" with
      | some v => do
          let i ← decodeI64 v
          Except.ok { id := i }
      | none => Except.error "missing field id"
  | _ => Except.error "invalid type: expected an object"

/-- serde decoding of `ColorCameraResolution`. -/
def decodeColorCameraResolution :
    Json → Except String Depthai.ColorCameraResolution
  | Json.str s =>
      if s = "THE_1080_P" then Except.ok Depthai.ColorCameraResolution.THE_1080_P
      else if s = "THE_4_K" then Except.ok Depthai.ColorCameraResolution.THE_4_K
      else Except.error ("unknown variant " ++ s)
  | _ => Except.error "invalid type: expected a string variant tag"

/-- serde decoding of `MonoCameraResolution`. -/
def decodeMonoCameraResolution :
    Json → Except String Depthai.MonoCameraResolution
  | Json.str s =>
      if s = "THE_400_P" then Except.ok Depthai.MonoCameraResolution.THE_400_P
      else Except.error ("unknown variant " ++ s)
  | _ => Except.error "invalid type: expected a string variant tag"

/-- serde decoding of `BoardSocket`. -/
def decodeBoardSocket : Json → Except String Depthai.BoardSocket
  | Json.str s =>
      if s = "AUTO" then Except.ok Depthai.BoardSocket.AUTO
      else if s = "RGB" then Except.ok Depthai.BoardSocket.RGB
      else if s = "LEFT" then Except.ok Depthai.BoardSocket.LEFT
      else if s = "RIGHT" then Except.ok Depthai.BoardSocket.RIGHT
      else if s = "CENTER" then Except.ok Depthai.BoardSocket.CENTER
      else if s = "CAM_A" then Except.ok Depthai.BoardSocket.CAM_A
      else if s = "CAM_B" then Except.ok Depthai.BoardSocket.CAM_B
      else if s = "CAM_C" then Except.ok Depthai.BoardSocket.CAM_C
      else if s = "CAM_D" then Except.ok Depthai.BoardSocket.CAM_D
      else if s = "CAM_E" then Except.ok Depthai.BoardSocket.CAM_E
      else if s = "CAM_F" then Except.ok Depthai.BoardSocket.CAM_F
      else if s = "CAM_G" then Except.ok Depthai.BoardSocket.CAM_G
      else if s = "CAM_H" then Except.ok Depthai.BoardSocket.CAM_H
      else Except.error ("unknown variant " ++ s)
  | _ => Except.error "invalid type: expected a string variant tag"

/-- serde decoding of `DepthMedianFilter`. -/
def decodeDepthMedianFilter : Json → Except String Depthai.DepthMedianFilter
  | Json.str s =>
      if s = "MEDIAN_OFF" then Except.ok Depthai.DepthMedianFilter.MEDIAN_OFF
      else if s = "KERNEL_3x3" then Except.ok Depthai.DepthMedianFilter.KERNEL_3x3
      else if s = "KERNEL_5x5" then Except.ok Depthai.DepthMedianFilter.KERNEL_5x5
      else if s = "KERNEL_7x7" then Except.ok Depthai.DepthMedianFilter.KERNEL_7x7
      else Except.error ("unknown variant " ++ s)
  | _ => Except.error "invalid type: expected a string variant tag"

/-- serde decoding of `ColorCameraConfig`. -/
def decodeColorCameraConfig : Json → Except String Depthai.ColorCameraConfig
  | Json.obj fields => do
      let fps ← match (Json.obj fields).getField "fps" with
        | some v => decodeU8 v
        | none => Except.error "missing field fps"
      let res ← match (Json.obj fields).getField "resolution" with
        | some v => decodeColorCameraResolution v
        | none => Except.error "missing field resolution"
      Except.ok { fps := fps, resolution := res }
  | _ => Except.error "invalid type: expected an object"

/-- serde decoding of `MonoCameraConfig`. -/
def decodeMonoCameraConfig : Json → Except String Depthai.MonoCameraConfig
  | Json.obj fields => do
      let fps ← match (Json.obj fields).getField "fps" with
        | some v => decodeU8 v
        | none => Except.error "missing field fps"
      let res ← match (Json.obj fields).getField "resolution" with
        | some v => decodeMonoCameraResolution v
        | none => Except.error "missing field resolution"
      let socket ← match (Json.obj fields).getField "board_socket" with
        | some v => decodeBoardSocket v
        | none => Except.error "missing field board_socket"
      Except.ok { fps := fps, resolution := res, board_socket := socket }
  | _ => Except.error "invalid type: expected an object"

/-- serde decoding of `PointcloudConfig`. -/
def decodePointcloudConfig : Json → Except String Depthai.PointcloudConfig
  | Json.obj fields => do
      let e ← match (Json.obj fields).getField "enabled" with
        | some v => decodeBool v
        | none => Except.error "missing field enabled"
      Except.ok { enabled := e }
  | _ => Except.error "invalid type: expected an object"

/-- serde decoding of `DepthConfig`. -/
def decodeDepthConfig : Json → Except String Depthai.DepthConfig
  | Json.obj fields => do
      let m ← match (Json.obj fields).getField "median" with
        | some v => decodeDepthMedianFilter v
        | none => Except.error "missing field median"
      let pc ← match (Json.obj fields).getField "pointcloud" with
        | some v => decodePointcloudConfig v
        | none => Except.error "missing field pointcloud"
      Except.ok { median := m, pointcloud := pc }
  | _ => Except.error "invalid type: expected an object"

/-- serde decoding of `Option<DepthConfig>`: `null` is `None`, anything else
must decode as a `DepthConfig`. -/
def decodeOptionDepthConfig : Json → Except String (Option Depthai.DepthConfig)
  | Json.null => Except.ok none
  | v => do
      let d ← decodeDepthConfig v
      Except.ok (some d)

/-- serde decoding of `AiModel`. -/
def decodeAiModel : Json → Except String Depthai.AiModel
  | Json.obj fields => do
      let p ← match (Json.obj fields).getField "path" with
        | some v => decodeString v
        | none => Except.error "missing field path"
      let d ← match (Json.obj fields).getField "display_name" with
        | some v => decodeString v
        | none => Except.error "missing field display_name"
      Except.ok { path := p, display_name := d }
  | _ => Except.error "invalid type: expected an object"

/-- serde decoding of `DeviceConfig`, honoring
`#[serde(default = "bool_true")]` on `depth_enabled` and
`#[serde(default = "DepthConfig::default_as_option")]` on `depth`. -/
def decodeDeviceConfig : Json → Except String Depthai.DeviceConfig
  | Json.obj fields => do
      let color ← match (Json.obj fields).getField "color_camera" with
        | some v => decodeColorCameraConfig v
        | none => Except.error "missing field color_camera"
      let left ← match (Json.obj fields).getField "left_camera" with
        | some v => decodeMonoCameraConfig v
        | none => Except.error "missing field left_camera"
      let right ← match (Json.obj fields).getField "right_camera" with
        | some v => decodeMonoCameraConfig v
        | none => Except.error "missing field right_camera"
      let de ← match (Json.obj fields).getField "depth_enabled" with
        | some v => decodeBool v
        | none => Except.ok true
      let depth ← match (Json.obj fields).getField "depth" with
        | some v => decodeOptionDepthConfig v
        | none => Except.ok Depthai.DepthConfig.default_as_option
      let ai ← match (Json.obj fields).getField "ai_model" with
        | some v => decodeAiModel v
        | none => Except.error "missing field ai_model"
      Except.ok
        { color_camera := color, left_camera := left, right_camera := right
          depth_enabled := de, depth := depth, ai_model := ai }
  | _ => Except.error "invalid type: expected an object"

/-- The helper `Message` struct deserialized first inside
`BackWsMessage::deserialize`: only the `type` tag (as a `WsMessageType`)
and the raw `data` value. -/
def decodeMessage (j : Json) : Except String (WsMessageType × Json) :=
  match j with
  | Json.obj _ => do
      let k ← match j.getField "type" with
        | some v => decodeWsMessageType v
        | none => Except.error "missing field type"
      let d ← match j.getField "data" with
        | some v => Except.ok v
        | none => Except.error "missing field data"
      Except.ok (k, d)
  | _ => Except.error "invalid type: expected an object"

/-- `Result::unwrap_or_default`. -/
def unwrapOrDefault (r : Except String α) (dflt : α) : α :=
  match r with
  | Except.ok a => a
  | Except.error _ => dflt

/-- Outcome of running `BackWsMessage::deserialize`: success, a serde error
(propagated via `?`), or a Rust panic (from `Result::unwrap` on an error). -/
inductive DeserOutcome where
  | ok (m : BackWsMessage)
  | err (e : String)
  | panicked
deriving DecidableEq, Repr

/-- `impl Deserialize for BackWsMessage` from ws.rs: decode the tag and raw
data, then decode the payload under the schema selected by the tag.  Every
arm uses `unwrap_or_default()` except `Pipeline`, which calls `unwrap()` and
therefore panics when its payload does not decode as a `DeviceConfig`. -/
def BackWsMessage.deserialize (j : Json) : DeserOutcome :=
  match decodeMessage j with
  | Except.error e => DeserOutcome.err e
  | Except.ok (kind, data) =>
      match kind with
      | WsMessageType.Subscriptions =>
          DeserOutcome.ok
            ⟨kind, WsMessageData.Subscriptions
              (unwrapOrDefault (decodeChannelIdList data) [])⟩
      | WsMessageType.Devices =>
          DeserOutcome.ok
            ⟨kind, WsMessageData.Devices
              (unwrapOrDefault (decodeDeviceIdList data) [])⟩
      | WsMessageType.Device =>
          DeserOutcome.ok
            ⟨kind, WsMessageData.Device
              (unwrapOrDefault (decodeDevice data) Depthai.Device.default)⟩
      | WsMessageType.Pipeline =>
          match decodeDeviceConfig data with
          | Except.ok c => DeserOutcome.ok ⟨kind, WsMessageData.Pipeline c⟩
          | Except.error _ => DeserOutcome.panicked
      | WsMessageType.Error =>
          DeserOutcome.ok
            ⟨kind, WsMessageData.Error
              (unwrapOrDefault (decodeString data) "")⟩

/-- Outcome of one `WebSocket::receive` call: a normal return (with or
without a decoded message) or a panic surfaced from deserialization. -/
inductive ReceiveOutcome where
  | returns (m : Option BackWsMessage)
  | panicked
deriving DecidableEq, Repr

/-- `WebSocket::receive` from ws.rs, with the (already JSON-parsed) text of
the pending inbound frame passed explicitly (`none` when the queue is empty
or the frame is not text).  A deserialize error is logged and turned into
`None`; a panic in `deserialize` propagates. -/
def receive (incoming : Option Json) : ReceiveOutcome :=
  match incoming with
  | none => ReceiveOutcome.returns none
  | some j =>
      match BackWsMessage.deserialize j with
      | DeserOutcome.ok m => ReceiveOutcome.returns (some m)
      | DeserOutcome.err _ => ReceiveOutcome.returns none
      | DeserOutcome.panicked => ReceiveOutcome.panicked

end Ws

namespace Depthai

/-- The board-socket normalization applied by `set_device_config` before
storing and pushing (lines 558-559 of depthai.rs). -/
def normalizedConfig (config : DeviceConfig) : DeviceConfig :=
  { config with
      left_camera := { config.left_camera with board_socket := BoardSocket.LEFT }
      right_camera := { config.right_camera with board_socket := BoardSocket.RIGHT } }

/-- A state whose transport is connected and that has device 3 selected. -/
def connState : State :=
  { State.init 0 with connected := true, selected_device := { id := 3 } }

/-- A connected, device-selected state already holding the normalized
default configuration. -/
def heldConfigState : State :=
  { connState with
      device_config :=
        { config := normalizedConfig DeviceConfig.default
          update_in_progress := false } }

end Depthai

open Depthai

/-- Auxiliary: `set_subscriptions` never touches `device_config`. -/
theorem set_subscriptions_device_config (s : State) (subs : List ChannelId) :
    (s.set_subscriptions subs).1.device_config = s.device_config := by
  unfold State.set_subscriptions
  split <;> rfl

/-- Auxiliary: `set_subscriptions` never touches `selected_device`. -/
theorem set_subscriptions_selected (s : State) (subs : List ChannelId) :
    (s.set_subscriptions subs).1.selected_device = s.selected_device := by
  unfold State.set_subscriptions
  split <;> rfl

/-- Auxiliary: `set_subscriptions` never touches `poll_instant`. -/
theorem set_subscriptions_poll_instant (s : State) (subs : List ChannelId) :
    (s.set_subscriptions subs).1.poll_instant = s.poll_instant := by
  unfold State.set_subscriptions
  split <;> rfl

/-- Auxiliary: when the lengths differ, `set_subscriptions` adopts the new
list. -/
theorem set_subscriptions_adopts (s : State) (subs : List ChannelId)
    (h : s.subscriptions.length ≠ subs.length) :
    (s.set_subscriptions subs).1.subscriptions = subs := by
  unfold State.set_subscriptions
  rw [if_neg (fun hc => h hc.1)]

/-- Auxiliary: `set_device` never modifies the state. -/
theorem set_device_state_eq (s : State) (x : DeviceId) :
    (s.set_device x).1 = s := by
  unfold State.set_device
  split <;> rfl

/-- Auxiliary: the poll step never touches `device_config`. -/
theorem poll_device_config (s : State) (t : Nat) :
    (s.poll t).1.device_config = s.device_config := by
  unfold State.poll
  cases s.poll_instant <;> simp only [] <;> first | rfl | (split <;> rfl)

/-- Auxiliary: the poll step never touches `subscriptions`. -/
theorem poll_subscriptions (s : State) (t : Nat) :
    (s.poll t).1.subscriptions = s.subscriptions := by
  unfold State.poll
  cases s.poll_instant <;> simp only [] <;> first | rfl | (split <;> rfl)

/-- Auxiliary: the poll step never touches `selected_device`. -/
theorem poll_selected (s : State) (t : Nat) :
    (s.poll t).1.selected_device = s.selected_device := by
  unfold State.poll
  cases s.poll_instant <;> simp only [] <;> first | rfl | (split <;> rfl)

/-- **C10** — A freshly constructed `State` starts with its subscription
list equal to all five data channels (`all_subscriptions`), not the empty
set, whatever the construction instant. -/
theorem C10_default_subscriptions (now : Nat) :
    (State.init now).subscriptions =
      [ChannelId.ColorImage, ChannelId.LeftMono, ChannelId.RightMono,
       ChannelId.DepthImage, ChannelId.PointCloud] ∧
    (State.init now).subscriptions.length = 5 := by
  exact ⟨rfl, rfl⟩

/-- The malformed inbound frame named by the spec:
`{"type":"Pipeline","data":"not-an-object"}`. -/
def badPipelineJson : Ws.Json :=
  Ws.Json.obj
    [("type", Ws.Json.str "Pipeline"), ("data", Ws.Json.str "not-an-object")]

/-- **C1** — Contrary to the claim, the inbound frame
`{"type":"Pipeline","data":"not-an-object"}` does not decode to an `Error`
event: `BackWsMessage::deserialize` reaches the `Pipeline` arm, whose
`unwrap()` panics because the payload is not a `DeviceConfig` object, so
`WebSocket::receive` panics instead of returning. -/
theorem C1_pipeline_payload_panics :
    Ws.BackWsMessage.deserialize badPipelineJson = Ws.DeserOutcome.panicked ∧
    Ws.receive (some badPipelineJson) = Ws.ReceiveOutcome.panicked := by
  exact ⟨rfl, rfl⟩

/-- **C2** — While the transport is connected and a device is selected,
`set_device_config` stores and pushes a configuration whose left camera
socket is `LEFT` and whose right camera socket is `RIGHT`, regardless of
the sockets supplied by the caller, and the single pushed `Pipeline`
command carries exactly the stored configuration. -/
theorem C2_board_sockets_forced (s : State) (config : DeviceConfig)
    (hc : s.connected = true) (hd : s.selected_device.id ≠ -1) :
    (s.set_device_config config).1.device_config.config.left_camera.board_socket
        = BoardSocket.LEFT ∧
    (s.set_device_config config).1.device_config.config.right_camera.board_socket
        = BoardSocket.RIGHT ∧
    (s.set_device_config config).2 =
      [Cmd.pipeline (s.set_device_config config).1.device_config.config] := by
  unfold State.set_device_config
  rw [if_neg (by simp [hc, hd])]
  exact ⟨rfl, rfl, rfl⟩

/-- Witness for C2 at a concrete connected state and the default config. -/
theorem C2_board_sockets_forced_witness :
    (connState.set_device_config DeviceConfig.default).1.device_config.config.left_camera.board_socket
        = BoardSocket.LEFT ∧
    (connState.set_device_config DeviceConfig.default).1.device_config.config.right_camera.board_socket
        = BoardSocket.RIGHT ∧
    (connState.set_device_config DeviceConfig.default).2 =
      [Cmd.pipeline (connState.set_device_config DeviceConfig.default).1.device_config.config] :=
  C2_board_sockets_forced connState DeviceConfig.default rfl (by decide)

/-- **C3 counterexample** — In a connected, device-selected state already
holding the normalized default configuration, calling `set_device_config`
with the default configuration (whose normalization equals the held
configuration) still pushes a `Pipeline` command and sets
`update_in_progress`, refuting the claimed no-op. -/
theorem C3_counterexample :
    normalizedConfig DeviceConfig.default = heldConfigState.device_config.config ∧
    (heldConfigState.set_device_config DeviceConfig.default).2 =
      [Cmd.pipeline (normalizedConfig DeviceConfig.default)] ∧
    (heldConfigState.set_device_config DeviceConfig.default).1.device_config.update_in_progress
      = true := by
  refine ⟨rfl, ?_, rfl⟩
  decide

/-- **C3 (amended)** — While connected and with a device selected,
`set_device_config` unconditionally stores the normalized candidate, pushes
exactly one `Pipeline` command carrying it and sets `update_in_progress`,
even when the normalized candidate equals the held configuration. -/
theorem C3_always_pushes (s : State) (config : DeviceConfig)
    (hc : s.connected = true) (hd : s.selected_device.id ≠ -1) :
    s.set_device_config config =
      ({ s with device_config :=
          { config := normalizedConfig config, update_in_progress := true } },
       [Cmd.pipeline (normalizedConfig config)]) := by
  unfold State.set_device_config normalizedConfig
  rw [if_neg (by simp [hc, hd])]

/-- Witness for the amended C3 at a concrete connected state. -/
theorem C3_always_pushes_witness :
    heldConfigState.set_device_config DeviceConfig.default =
      ({ heldConfigState with device_config :=
          { config := normalizedConfig DeviceConfig.default
            update_in_progress := true } },
       [Cmd.pipeline (normalizedConfig DeviceConfig.default)]) :=
  C3_always_pushes heldConfigState DeviceConfig.default rfl (by decide)

/-- **C4 counterexample** — From the freshly constructed state (selected id
`-1`), two consecutive `set_device 5` calls each send a `Device` command:
the state is unmodified by the first call, so the second sends again, for
two commands in total, refuting "at most one". -/
theorem C4_counterexample :
    ((State.init 0).set_device 5).1 = State.init 0 ∧
    ((State.init 0).set_device 5).2 = [Cmd.device 5] ∧
    ((((State.init 0).set_device 5).1.set_device 5).2 = [Cmd.device 5]) ∧
    (((State.init 0).set_device 5).2 ++
        (((State.init 0).set_device 5).1.set_device 5).2).length = 2 := by
  refine ⟨rfl, by decide, by decide, by decide⟩

/-- **C4 (amended)** — `set_device x` never modifies the state (in
particular `selected_device`); it sends no command precisely when `x`
equals the selected device's id; consequently two consecutive
`set_device x` calls send zero commands when `x` is the selected id and
otherwise one command each, two in total. -/
theorem C4_set_device_behavior (s : State) (x : DeviceId) :
    (s.set_device x).1 = s ∧
    (s.set_device x).2 =
      (if s.selected_device.id = x then [] else [Cmd.device x]) ∧
    ((s.set_device x).2 ++ ((s.set_device x).1.set_device x).2).length =
      (if s.selected_device.id = x then 0 else 2) := by
  unfold State.set_device
  by_cases h : s.selected_device.id = x <;> simp [h]

/-- A state subscribed only to the color channel. -/
def colorOnlyState : State :=
  { State.init 0 with subscriptions := [ChannelId.ColorImage] }

/-- **C5 counterexample** — With current subscriptions `[ColorImage]` and
the requested list `[ColorImage, ColorImage]`, the two lists are set-equal
(same elements in any order), yet `set_subscriptions` sends a
`Subscriptions` command because the lengths differ, refuting "set-equal
implies zero commands". -/
theorem C5_counterexample :
    (∀ c : ChannelId,
        c ∈ colorOnlyState.subscriptions ↔
          c ∈ [ChannelId.ColorImage, ChannelId.ColorImage]) ∧
    (colorOnlyState.set_subscriptions
        [ChannelId.ColorImage, ChannelId.ColorImage]).2 =
      [Cmd.subscriptions [ChannelId.ColorImage, ChannelId.ColorImage]] := by
  constructor
  · decide
  · decide

/-- **C5 (amended)** — For duplicate-free lists the claim holds:
`set_subscriptions` is a no-op (no command, state unchanged) exactly when
the requested list is set-equal to the current one, and otherwise sends
exactly one `Subscriptions` command carrying the request and adopts it.
(The code's actual test — equal lengths plus containment of the current
list in the request — coincides with set equality only without
duplicates.) -/
theorem C5_set_subscriptions_nodup (s : State) (subs : List ChannelId)
    (h1 : s.subscriptions.Nodup) (h2 : subs.Nodup) :
    s.set_subscriptions subs =
      if ∀ c, c ∈ s.subscriptions ↔ c ∈ subs then (s, [])
      else ({ s with subscriptions := subs }, [Cmd.subscriptions subs]) := by
  have key : (s.subscriptions.length = subs.length ∧
      ∀ c ∈ s.subscriptions, c ∈ subs) ↔
      (∀ c, c ∈ s.subscriptions ↔ c ∈ subs) := by
    constructor
    · rintro ⟨hlen, hsub⟩ c
      refine ⟨fun hc => hsub c hc, fun hc => ?_⟩
      have hsp : List.Subperm s.subscriptions subs :=
        h1.subperm (fun c hc => hsub c hc)
      have hperm : List.Perm s.subscriptions subs :=
        hsp.perm_of_length_le (le_of_eq hlen.symm)
      exact hperm.mem_iff.mpr hc
    · intro hiff
      have hsub : s.subscriptions ⊆ subs := fun c hc => (hiff c).1 hc
      have hsub' : subs ⊆ s.subscriptions := fun c hc => (hiff c).2 hc
      have hperm : List.Perm s.subscriptions subs :=
        (h1.subperm hsub).antisymm (h2.subperm hsub')
      exact ⟨hperm.length_eq, fun c hc => (hiff c).1 hc⟩
  unfold State.set_subscriptions
  by_cases h : ∀ c, c ∈ s.subscriptions ↔ c ∈ subs
  · rw [if_pos h, if_pos (key.mpr h)]
  · rw [if_neg h, if_neg (fun hc => h (key.mp hc))]

/-- Witness for the amended C5: resubmitting the full default subscription
list to a fresh state is a no-op. -/
theorem C5_set_subscriptions_nodup_witness :
    (State.init 0).set_subscriptions all_subscriptions = (State.init 0, []) := by
  have h := C5_set_subscriptions_nodup (State.init 0) all_subscriptions
    (by decide) (by decide)
  rwa [if_pos (by decide)] at h

/-- A state with an in-flight configuration push. -/
def pendingState : State :=
  { State.init 0 with
      device_config := { config := DeviceConfig.default, update_in_progress := true } }

/-- **C9 counterexample** — Processing an inbound `Error` event with action
`None` clears `update_in_progress` even though the event is neither a
`Pipeline` confirmation nor a deselection (`selected_device` is untouched),
refuting "the flag clears only on Pipeline receipt or deselection". -/
theorem C9_counterexample :
    pendingState.device_config.update_in_progress = true ∧
    (pendingState.update
        (some (WsMessageData.Error { action := ErrorAction.None, message := "boom" }))
        0).1.device_config.update_in_progress = false ∧
    (pendingState.update
        (some (WsMessageData.Error { action := ErrorAction.None, message := "boom" }))
        0).1.selected_device = pendingState.selected_device := by
  refine ⟨rfl, by decide, by decide⟩

/-- **C9 (amended)** — After any single `update` tick, `update_in_progress`
is `false` when the processed event was a `Pipeline` or an `Error` event,
`true` when it was a `Device` event, and unchanged otherwise
(`Subscriptions`, `Devices`, or no event); the poll step never touches it. -/
theorem C9_flag_transitions (s : State) (msg : Option WsMessageData) (t : Nat) :
    (s.update msg t).1.device_config.update_in_progress =
      match msg with
      | some (WsMessageData.Pipeline _) => false
      | some (WsMessageData.Error _) => false
      | some (WsMessageData.Device _) => true
      | _ => s.device_config.update_in_progress := by
  unfold State.update
  rw [poll_device_config]
  match msg with
  | none => rfl
  | some (WsMessageData.Subscriptions subs) => rfl
  | some (WsMessageData.Devices devices) => rfl
  | some (WsMessageData.Pipeline config) => rfl
  | some (WsMessageData.Device device) => rfl
  | some (WsMessageData.Error error) =>
      simp only [State.handle_message]
      match error.action with
      | ErrorAction.None => rfl
      | ErrorAction.FullReset =>
          rw [set_device_state_eq]

/-- The list handed to `set_subscriptions` by the `Pipeline` arm of
`State::update`: the current subscriptions plus `DepthImage` (and
`PointCloud` when enabled) whenever the new config has depth. -/
def pipelineSubsArg (s : State) (config : DeviceConfig) : List ChannelId :=
  s.subscriptions ++
    (match config.depth with
     | some depth =>
         [ChannelId.DepthImage] ++
           (if depth.pointcloud.enabled then [ChannelId.PointCloud] else [])
     | none => [])

/-- The state produced by the `Pipeline` arm's two config assignments:
adopt the new config, then derive `depth_enabled` from it. -/
def pipelineNewState (s : State) (config : DeviceConfig) : State :=
  { s with device_config :=
      { s.device_config with config :=
          { config with depth_enabled := config.depth.isSome } } }

/-- **C6** — Processing an inbound `Pipeline(config)` event adopts `config`
with `depth_enabled` recomputed as `config.depth.isSome`, clears
`update_in_progress`, and whenever `config.depth` is present the resulting
subscription list contains `DepthImage` (plus `PointCloud` when the
pointcloud output is enabled), for every prior state — in particular one
whose previous configuration had no depth and with no UI action. -/
theorem C6_pipeline_adopts (s : State) (config : DeviceConfig) (t : Nat) :
    (s.update (some (WsMessageData.Pipeline config)) t).1.device_config.config =
      { config with depth_enabled := config.depth.isSome } ∧
    (s.update (some (WsMessageData.Pipeline config)) t).1.device_config.update_in_progress
      = false ∧
    ∀ d, config.depth = some d →
      ChannelId.DepthImage ∈
        (s.update (some (WsMessageData.Pipeline config)) t).1.subscriptions ∧
      (d.pointcloud.enabled = true →
        ChannelId.PointCloud ∈
          (s.update (some (WsMessageData.Pipeline config)) t).1.subscriptions) := by
  have hupd : (s.update (some (WsMessageData.Pipeline config)) t).1 =
      ((s.handle_message (some (WsMessageData.Pipeline config))).1.poll t).1 := rfl
  have hdc : (s.handle_message (some (WsMessageData.Pipeline config))).1.device_config =
      { ((pipelineNewState s config).set_subscriptions
          (pipelineSubsArg s config)).1.device_config with
        update_in_progress := false } := rfl
  have hsubs : (s.handle_message (some (WsMessageData.Pipeline config))).1.subscriptions =
      ((pipelineNewState s config).set_subscriptions
        (pipelineSubsArg s config)).1.subscriptions := rfl
  refine ⟨?_, ?_, ?_⟩
  · rw [hupd, poll_device_config, hdc,
      set_subscriptions_device_config (pipelineNewState s config) (pipelineSubsArg s config)]
    rfl
  · rw [hupd, poll_device_config, hdc]
  · intro d hd
    have hlen : (pipelineNewState s config).subscriptions.length ≠
        (pipelineSubsArg s config).length := by
      show s.subscriptions.length ≠ _
      unfold pipelineSubsArg
      rw [hd]
      cases he : d.pointcloud.enabled <;> simp
    have had := set_subscriptions_adopts (pipelineNewState s config)
      (pipelineSubsArg s config) hlen
    constructor
    · rw [hupd, poll_subscriptions, hsubs, had]
      unfold pipelineSubsArg
      rw [hd]
      simp
    · intro he
      rw [hupd, poll_subscriptions, hsubs, had]
      unfold pipelineSubsArg
      rw [hd]
      simp [he]

/-- A configuration with depth present and pointcloud output enabled. -/
def depthConfigOn : DeviceConfig :=
  { DeviceConfig.default with
      depth := some
        { median := DepthMedianFilter.default, pointcloud := { enabled := true } } }

/-- Witness for C6: from the depthless fresh state, a `Pipeline` event with
depth and pointcloud enabled puts `DepthImage` and `PointCloud` in the
subscription list and clears the pending flag. -/
theorem C6_pipeline_adopts_witness :
    ChannelId.DepthImage ∈
      ((State.init 0).update (some (WsMessageData.Pipeline depthConfigOn)) 0).1.subscriptions ∧
    ChannelId.PointCloud ∈
      ((State.init 0).update (some (WsMessageData.Pipeline depthConfigOn)) 0).1.subscriptions ∧
    ((State.init 0).update (some (WsMessageData.Pipeline depthConfigOn)) 0).1.device_config.update_in_progress
      = false := by
  have h := C6_pipeline_adopts (State.init 0) depthConfigOn 0
  have h3 := h.2.2
    { median := DepthMedianFilter.default, pointcloud := { enabled := true } } rfl
  exact ⟨h3.1, h3.2 rfl, h.2.1⟩

/-- Auxiliary: the retention fold of `desired_subscriptions` never drops an
element already collected. -/
theorem retain_foldl_mono (possible current : List ChannelId)
    (l : List ChannelId) :
    ∀ (acc : List ChannelId) (c : ChannelId), c ∈ acc →
      c ∈ l.foldl (fun subs c =>
        if c ∉ subs ∧ c ∈ possible ∧ c ∈ current then subs ++ [c] else subs) acc := by
  induction l with
  | nil => intro acc c hc; simpa using hc
  | cons hd tl ih =>
      intro acc c hc
      rw [List.foldl_cons]
      apply ih
      by_cases h : hd ∉ acc ∧ hd ∈ possible ∧ hd ∈ current
      · rw [if_pos h]; exact List.mem_append_left _ hc
      · rw [if_neg h]; exact hc

/-- Auxiliary: the retention fold keeps every iterated channel that is
possible and currently subscribed. -/
theorem retain_foldl_adds (possible current : List ChannelId)
    (l : List ChannelId) :
    ∀ (acc : List ChannelId) (c : ChannelId), c ∈ l → c ∈ possible → c ∈ current →
      c ∈ l.foldl (fun subs c =>
        if c ∉ subs ∧ c ∈ possible ∧ c ∈ current then subs ++ [c] else subs) acc := by
  induction l with
  | nil => intro acc c hc; simp at hc
  | cons hd tl ih =>
      intro acc c hcl hp hcur
      rw [List.foldl_cons]
      rcases List.mem_cons.mp hcl with heq | htl
      · subst heq
        apply retain_foldl_mono
        by_cases h : c ∉ acc ∧ c ∈ possible ∧ c ∈ current
        · rw [if_pos h]; simp
        · rw [if_neg h]
          by_contra hacc
          exact h ⟨hacc, hp, hcur⟩
      · exact ih _ c htl hp hcur

/-- Auxiliary: everything the retention fold produces was either already
collected or is possible and currently subscribed. -/
theorem retain_foldl_sound (possible current : List ChannelId)
    (l : List ChannelId) :
    ∀ (acc : List ChannelId) (c : ChannelId),
      c ∈ l.foldl (fun subs c =>
        if c ∉ subs ∧ c ∈ possible ∧ c ∈ current then subs ++ [c] else subs) acc →
      c ∈ acc ∨ (c ∈ possible ∧ c ∈ current) := by
  induction l with
  | nil => intro acc c hc; exact Or.inl (by simpa using hc)
  | cons hd tl ih =>
      intro acc c hc
      rw [List.foldl_cons] at hc
      rcases ih _ c hc with h | h
      · by_cases hcond : hd ∉ acc ∧ hd ∈ possible ∧ hd ∈ current
        · rw [if_pos hcond] at h
          rcases List.mem_append.mp h with h' | h'
          · exact Or.inl h'
          · have heq : c = hd := by simpa using h'
            subst heq
            exact Or.inr ⟨hcond.2.1, hcond.2.2⟩
        · rw [if_neg hcond] at h; exact Or.inl h
      · exact Or.inr h

/-- Auxiliary: `PinholeCamera` is never a possible subscription. -/
theorem pinhole_not_possible (config : DeviceConfig) :
    ChannelId.PinholeCamera ∉ possible_subscriptions config := by
  unfold possible_subscriptions
  cases config.depth with
  | none => decide
  | some d => cases hd : d.pointcloud.enabled <;> simp

/-- Auxiliary: every possible subscription is one of the five channels of
`all_subscriptions`. -/
theorem possible_subset_all (config : DeviceConfig) :
    ∀ c, c ∈ possible_subscriptions config → c ∈ all_subscriptions := by
  intro c hc
  cases c with
  | PinholeCamera => exact absurd hc (pinhole_not_possible config)
  | ColorImage => decide
  | LeftMono => decide
  | RightMono => decide
  | DepthImage => decide
  | PointCloud => decide

/-- The visibility fixture of the claim: one space view containing the rgb
path (visible) and the depth path (not visible). -/
def colorDepthView : List SpaceView :=
  [{ entity_paths := [EntityPath.rgb, EntityPath.depth]
     visible := fun p => decide (p = EntityPath.rgb) }]

/-- **C7** — The desired subscription list computed by
`set_subscriptions_from_space_views` contains a channel only if it is
possible under the current configuration, and retains every channel that is
possible, currently subscribed and not reported visible by any view; with
visibility rgb-true/depth-false, `depth = None` and prior subscriptions
`[ColorImage]`, the desired list is exactly `[ColorImage]`. -/
theorem C7_reconciler (s : State) (views : List SpaceView) :
    (∀ c, c ∈ desired_subscriptions s views →
        c ∈ possible_subscriptions s.device_config.config) ∧
    (∀ c, c ∈ possible_subscriptions s.device_config.config →
        c ∈ s.subscriptions →
        (channelVisibilities views c).any id = false →
        c ∈ desired_subscriptions s views) ∧
    desired_subscriptions colorOnlyState colorDepthView = [ChannelId.ColorImage] := by
  refine ⟨?_, ?_, by decide⟩
  · intro c hc
    simp only [desired_subscriptions] at hc
    rcases retain_foldl_sound _ _ _ _ _ hc with h | h
    · have hmem := List.mem_filter.mp h
      have hb := hmem.2
      simp only [Bool.and_eq_true, decide_eq_true_eq] at hb
      exact hb.2
    · exact h.1
  · intro c hp hcur _
    simp only [desired_subscriptions]
    exact retain_foldl_adds _ _ _ _ c (possible_subset_all _ c hp) hp hcur

/-- A state with depth and pointcloud enabled that is already subscribed to
`PointCloud`. -/
def pcRetainState : State :=
  { State.init 0 with
      subscriptions := [ChannelId.ColorImage, ChannelId.PointCloud]
      device_config := { config := depthConfigOn, update_in_progress := false } }

/-- Witness for C7: `PointCloud` — possible, previously active, and not
reported visible by any view — is retained in the desired list. -/
theorem C7_reconciler_witness :
    ChannelId.PointCloud ∈ desired_subscriptions pcRetainState colorDepthView ∧
    ChannelId.ColorImage ∈ possible_subscriptions pcRetainState.device_config.config :=
  ⟨(C7_reconciler pcRetainState colorDepthView).2.1 ChannelId.PointCloud
      (by decide) (by decide) (by decide),
   (C7_reconciler pcRetainState colorDepthView).1 ChannelId.ColorImage (by decide)⟩

/-- Auxiliary: message dispatch never touches `poll_instant`. -/
theorem handle_message_poll_instant (s : State) (msg : Option WsMessageData) :
    (s.handle_message msg).1.poll_instant = s.poll_instant := by
  match msg with
  | none => rfl
  | some (WsMessageData.Subscriptions subs) => rfl
  | some (WsMessageData.Devices devices) => rfl
  | some (WsMessageData.Pipeline config) =>
      have h : (s.handle_message (some (WsMessageData.Pipeline config))).1.poll_instant =
          ((pipelineNewState s config).set_subscriptions
            (pipelineSubsArg s config)).1.poll_instant := rfl
      rw [h, set_subscriptions_poll_instant]
      rfl
  | some (WsMessageData.Device device) => rfl
  | some (WsMessageData.Error error) =>
      simp only [State.handle_message]
      match error.action with
      | ErrorAction.None => rfl
      | ErrorAction.FullReset => rw [set_device_state_eq]

/-- Auxiliary: message dispatch never emits a `Devices` pull request. -/
theorem handle_message_no_getDevices (s : State) (msg : Option WsMessageData) :
    Cmd.getDevices ∉ (s.handle_message msg).2 := by
  match msg with
  | none => simp [State.handle_message]
  | some (WsMessageData.Subscriptions subs) => simp [State.handle_message]
  | some (WsMessageData.Devices devices) => simp [State.handle_message]
  | some (WsMessageData.Pipeline config) =>
      have h : (s.handle_message (some (WsMessageData.Pipeline config))).2 =
          ((pipelineNewState s config).set_subscriptions (pipelineSubsArg s config)).2 := rfl
      rw [h]
      unfold State.set_subscriptions
      split <;> simp
  | some (WsMessageData.Device device) => simp [State.handle_message]
  | some (WsMessageData.Error error) =>
      simp only [State.handle_message]
      match error.action with
      | ErrorAction.None => simp
      | ErrorAction.FullReset =>
          unfold State.set_device
          by_cases hs : s.selected_device.id = -1 <;> simp [hs]

/-- Auxiliary: the poll step, unfolded when the last poll instant is
known. -/
theorem poll_eq_some (s : State) (t tp : Nat) (hp : s.poll_instant = some tp) :
    s.poll t =
      if (t - tp) / 1000 < 2 then (s, [])
      else ({ s with poll_instant := some t },
            if s.selected_device.id = -1 then [Cmd.getDevices] else []) := by
  unfold State.poll
  rw [hp]

/-- Auxiliary: the poll step, unfolded when no poll instant is recorded. -/
theorem poll_eq_none (s : State) (t : Nat) (hp : s.poll_instant = none) :
    s.poll t = ({ s with poll_instant := some t }, []) := by
  unfold State.poll
  rw [hp]

/-- Auxiliary: one poll step emits at most one command. -/
theorem poll_count_le_one (s : State) (t : Nat) :
    ((s.poll t).2.countP (fun c => decide (c = Cmd.getDevices))) ≤ 1 := by
  cases hp : s.poll_instant with
  | none => rw [poll_eq_none s t hp]; simp
  | some tp =>
      rw [poll_eq_some s t tp hp]
      by_cases h : (t - tp) / 1000 < 2
      · rw [if_pos h]; simp
      · rw [if_neg h]
        by_cases hs : s.selected_device.id = -1 <;> simp [hs, List.countP_cons]

/-- Auxiliary: when a poll step emits `getDevices`, at least 2 seconds
elapsed since `poll_instant`, no device was selected, and the poll instant
is reset to now. -/
theorem poll_fired (s : State) (t : Nat)
    (h : Cmd.getDevices ∈ (s.poll t).2) :
    ∃ tp, s.poll_instant = some tp ∧ 2 ≤ (t - tp) / 1000 ∧
      s.selected_device.id = -1 ∧ (s.poll t).1.poll_instant = some t := by
  cases hp : s.poll_instant with
  | none => rw [poll_eq_none s t hp] at h; simp at h
  | some tp =>
      rw [poll_eq_some s t tp hp] at h
      by_cases hlt : (t - tp) / 1000 < 2
      · rw [if_pos hlt] at h; simp at h
      · rw [if_neg hlt] at h
        by_cases hs : s.selected_device.id = -1
        · refine ⟨tp, rfl, Nat.le_of_not_lt hlt, hs, ?_⟩
          rw [poll_eq_some s t tp hp, if_neg hlt]
        · rw [if_neg hs] at h; simp at h

/-- Auxiliary: a poll step within 2 seconds of `poll_instant` emits
nothing. -/
theorem poll_not_fired_of_lt (s : State) (t tp : Nat)
    (h1 : s.poll_instant = some tp) (h2 : (t - tp) / 1000 < 2) :
    (s.poll t).2 = [] := by
  rw [poll_eq_some s t tp h1, if_pos h2]

/-- **C8** — The catalog poll inside `update` sends a `Devices` pull request
only when at least 2 wall-clock seconds elapsed since the last poll and no
device is selected at poll time; and two consecutive `update` calls less
than 2 seconds apart emit at most one `Devices` pull request in total. -/
theorem C8_poll_timing :
    (∀ (s : State) (msg : Option WsMessageData) (t : Nat),
        Cmd.getDevices ∈ (s.update msg t).2 →
        ∃ tp, s.poll_instant = some tp ∧ 2 ≤ (t - tp) / 1000 ∧
          (s.handle_message msg).1.selected_device.id = -1) ∧
    (∀ (s : State) (m0 m1 : Option WsMessageData) (t0 t1 : Nat),
        t1 - t0 < 2000 →
        (((s.update m0 t0).2 ++ ((s.update m0 t0).1.update m1 t1).2).countP
          (fun c => decide (c = Cmd.getDevices))) ≤ 1) := by
  constructor
  · intro s msg t h
    have hsplit : (s.update msg t).2 =
        (s.handle_message msg).2 ++ ((s.handle_message msg).1.poll t).2 := rfl
    rw [hsplit] at h
    rcases List.mem_append.mp h with h | h
    · exact absurd h (handle_message_no_getDevices s msg)
    · obtain ⟨tp, h1, h2, h3, _⟩ := poll_fired _ _ h
      rw [handle_message_poll_instant] at h1
      exact ⟨tp, h1, h2, h3⟩
  · intro s m0 m1 t0 t1 hlt
    have e1 : (s.update m0 t0).2 =
        (s.handle_message m0).2 ++ ((s.handle_message m0).1.poll t0).2 := rfl
    have e2 : ((s.update m0 t0).1.update m1 t1).2 =
        ((s.update m0 t0).1.handle_message m1).2 ++
          (((s.update m0 t0).1.handle_message m1).1.poll t1).2 := rfl
    have hz : ∀ (s' : State) (m : Option WsMessageData),
        ((s'.handle_message m).2.countP (fun c => decide (c = Cmd.getDevices))) = 0 := by
      intro s' m
      rw [List.countP_eq_zero]
      intro a ha
      simp only [decide_eq_true_eq]
      intro heq
      subst heq
      exact handle_message_no_getDevices s' m ha
    rw [e1, e2, List.countP_append, List.countP_append, List.countP_append, hz, hz]
    simp only [Nat.zero_add, Nat.add_zero]
    by_cases hfire : Cmd.getDevices ∈ ((s.handle_message m0).1.poll t0).2
    · obtain ⟨tp, _, _, _, h4⟩ := poll_fired _ _ hfire
      have hs2 : ((s.update m0 t0).1.handle_message m1).1.poll_instant = some t0 := by
        rw [handle_message_poll_instant]
        exact h4
      have hnof : (((s.update m0 t0).1.handle_message m1).1.poll t1).2 = [] :=
        poll_not_fired_of_lt _ _ _ hs2 (by omega)
      rw [hnof]
      simpa using poll_count_le_one (s.handle_message m0).1 t0
    · have h0 : (((s.handle_message m0).1.poll t0).2.countP
          (fun c => decide (c = Cmd.getDevices))) = 0 := by
        rw [List.countP_eq_zero]
        intro a ha
        simp only [decide_eq_true_eq]
        intro heq
        subst heq
        exact hfire ha
      rw [h0]
      simpa using poll_count_le_one ((s.update m0 t0).1.handle_message m1).1 t1

/-- Witness for C8: from the fresh state, updates at 2.5s and 3.0s (0.5s
apart) pull the device catalog at most once, and the pull that does happen
satisfies the elapsed-time and no-device-selected conditions. -/
theorem C8_poll_timing_witness :
    (((((State.init 0).update none 2500).2 ++
        (((State.init 0).update none 2500).1.update none 3000).2).countP
      (fun c => decide (c = Cmd.getDevices))) ≤ 1) ∧
    (∃ tp, (State.init 0).poll_instant = some tp ∧ 2 ≤ (2500 - tp) / 1000 ∧
      ((State.init 0).handle_message none).1.selected_device.id = -1) :=
  ⟨C8_poll_timing.2 (State.init 0) none none 2500 3000 (by omega),
   C8_poll_timing.1 (State.init 0) none 2500 (by decide)⟩
